import Mathlib

/-!
# Verification of the email-change confirmation flow and the realm export command

This development embeds, in Lean, the behavior specified for the
SahilSingh177/zulip excerpt:

* the confirmation-link lifecycle for email changes (token store, verifier,
  applier), whose implementation is not part of the excerpt and is therefore
  modelled from the specification, with the observable behavior pinned by
  `zerver/tests/test_email_change.py`;
* the realm export management command `zerver/management/commands/export.py`,
  whose `handle` method is embedded directly from the source.
-/

namespace EmailChange

/-- Modelled from the spec: realm (tenant) policy settings relevant to email
changes (§3, §4.3 of the spec).  The implementation (`zerver.models.realms`)
is absent from the excerpt. -/
structure Realm where
  rid : Nat
  active : Bool
  emailChangesDisabled : Bool
  disallowDisposableEmailAddresses : Bool
deriving DecidableEq, Repr

/-- Modelled from the spec: the user account fields the email-change flow
consults (`zerver.models.users` is absent from the excerpt). -/
structure User where
  uid : Nat
  realmId : Nat
  deliveryEmail : String
  active : Bool
  isMirrorDummy : Bool
  isAdmin : Bool
deriving DecidableEq, Repr

/-- Modelled from the spec: token status, §3 (`ACTIVE`, `USED`, `REVOKED`). -/
inductive TokenStatus where
  | active
  | used
  | revoked
deriving DecidableEq, Repr

/-- Modelled from the spec: the `EmailChangeStatus` record holding the pending
old→new email transition (§3). -/
structure ChangeRequest where
  cid : Nat
  userId : Nat
  realmId : Nat
  oldEmail : String
  newEmail : String
deriving DecidableEq, Repr

/-- Modelled from the spec: a confirmation token record bound to a change
request, with expiration and status (§3, §4.1). -/
structure Token where
  key : String
  requestId : Nat
  status : TokenStatus
  expiresAt : Nat
deriving DecidableEq, Repr

/-- Modelled from the spec: the persisted state of the flow (token store,
change-request records, user and realm rows), plus a logical clock and a
count of confirmation emails handed to the mail collaborator. -/
structure State where
  realms : List Realm
  users : List User
  requests : List ChangeRequest
  tokens : List Token
  nextId : Nat
  now : Nat
  sentEmails : Nat
deriving DecidableEq, Repr

/-- Decidable equality for `Except`, so that concrete runs of the fallible
operations can be checked by `decide`. -/
instance instExceptDecEq {ε α : Type} [DecidableEq ε] [DecidableEq α] :
    DecidableEq (Except ε α)
  | .error a, .error b =>
    if h : a = b then .isTrue (by rw [h]) else .isFalse (by intro hc; cases hc; exact h rfl)
  | .error _, .ok _ => .isFalse (by intro hc; cases hc)
  | .ok _, .error _ => .isFalse (by intro hc; cases hc)
  | .ok a, .ok b =>
    if h : a = b then .isTrue (by rw [h]) else .isFalse (by intro hc; cases hc; exact h rfl)

def findRealm (st : State) (r : Nat) : Option Realm :=
  st.realms.find? (fun x => x.rid == r)

def findUser (st : State) (u : Nat) : Option User :=
  st.users.find? (fun x => x.uid == u)

/-- Lookup of an existing account with the given delivery email in a realm
(the `get_user_by_delivery_email` collaborator, absent from the excerpt). -/
def findUserByEmail (st : State) (r : Nat) (e : String) : Option User :=
  st.users.find? (fun x => x.realmId == r && x.deliveryEmail == e)

def findRequest (st : State) (c : Nat) : Option ChangeRequest :=
  st.requests.find? (fun x => x.cid == c)

def findToken (st : State) (k : String) : Option Token :=
  st.tokens.find? (fun x => x.key == k)

/-- The owning user of a token, through its change request. -/
def tokenUserId (st : State) (t : Token) : Option Nat :=
  (findRequest st t.requestId).map (fun r => r.userId)

/-- Modelled from the spec: the token grammar (§4.2 step 1): a fixed-length
key over a restricted charset; a presented key that does not conform is
`Malformed`. -/
def keyWellFormed (k : String) : Bool :=
  k.length == 24 && k.toList.all (fun c => c.isLower || c.isDigit)

/-- Split a character list at every occurrence of the separator. -/
def splitOnChar (sep : Char) : List Char → List (List Char)
  | [] => [[]]
  | a :: as =>
    let r := splitOnChar sep as
    if a = sep then [] :: r
    else (a :: r.headD []) :: r.tail

/-- Modelled from the spec: syntactic email validation (`InvalidAddress`
in §7); the address must have exactly one `@` separating a nonempty local
part from a nonempty domain.  (Code point 64 is the at-sign.) -/
def emailValid (e : String) : Bool :=
  match splitOnChar (Char.ofNat 64) e.toList with
  | [l, d] => !l.isEmpty && !d.isEmpty
  | _ => false

def emailDomain (e : String) : String :=
  match splitOnChar (Char.ofNat 64) e.toList with
  | [_, d] => String.mk d
  | _ => ""

/-- Modelled from the spec: the external disposable-domain list (§4.3);
the test suite fixes `mailnator.com` as a disposable domain. -/
def disposableDomains : List String := ["mailnator.com"]

def isDisposableEmail (e : String) : Bool :=
  disposableDomains.contains (emailDomain e)

/-- Modelled from the spec: the TTL of an email-change confirmation link
(§3); the unit is hours, links lapse after one day. -/
def emailChangeTTL : Nat := 24

/-- The error taxonomy of §7 of the spec.  `targetAccountDeactivated` is the
"Account has been deactivated." rejection when the target address belongs to
a deactivated account; `userDeactivated` is the deactivated-session state of
the confirming user. -/
inductive ChangeError where
  | invalidAddress
  | changesDisabled
  | emailTaken
  | targetAccountDeactivated
  | malformed
  | notFound
  | expired
  | alreadyUsed
  | userDeactivated
  | realmDeactivated
  | disposableAddressRejected
deriving DecidableEq, Repr

/-- The HTTP status each failure surfaces with, as asserted by
`zerver/tests/test_email_change.py`. -/
def errorHttpStatus : ChangeError → Nat
  | .malformed => 404
  | .notFound => 404
  | .expired => 404
  | .alreadyUsed => 404
  | .userDeactivated => 401
  | .realmDeactivated => 302
  | .invalidAddress => 400
  | .changesDisabled => 400
  | .emailTaken => 400
  | .targetAccountDeactivated => 400
  | .disposableAddressRejected => 400

/-- The user-visible diagnostic for each failure, as asserted by
`zerver/tests/test_email_change.py`. -/
def errorMessage : ChangeError → String
  | .malformed => "Whoops. The confirmation link is malformed."
  | .notFound => "Whoops. We couldn\x27t find your confirmation link in the system."
  | .expired => "The confirmation link has expired or been deactivated."
  | .alreadyUsed => "The confirmation link has expired or been deactivated."
  | .userDeactivated => "Account is deactivated"
  | .realmDeactivated => "Realm has been deactivated"
  | .invalidAddress => "Invalid address"
  | .changesDisabled => "Email address changes are disabled in this organization."
  | .emailTaken => "Already has an account"
  | .targetAccountDeactivated => "Account has been deactivated."
  | .disposableAddressRejected => "Please use your real email address."

/-- Where the failure redirects, when it does: a deactivated realm redirects
(HTTP 302) to the realm-deactivated page. -/
def errorRedirect : ChangeError → Option String
  | .realmDeactivated => some "/accounts/deactivated/"
  | _ => none

/-- Modelled from the spec: the email-change request handler (the
`PATCH /json/settings` view together with `do_start_email_change_process`,
both absent from the excerpt).  The spec's §4.3 wording places the
preconditions at apply time only, but the excerpt's test suite
(`test_unauthorized_email_change`, `test_email_change_already_taken`,
`test_email_change_conflict_with_existing_mirror_dummy`,
`test_post_invalid_email`, `test_post_same_email`) fixes that the same
checks also run at request time, rejecting the request before any
confirmation email is sent; the tests are followed where the two differ.

On success the handler records the change request, revokes every other
ACTIVE token of the requesting user (§4.1 `revoke`), mints a fresh ACTIVE
token expiring after the TTL with the externally generated random `key`,
and hands one confirmation email to the mail collaborator.  Requesting a
change to the current address is a no-op success that mints no token. -/
def revokeActiveFor (st : State) (uid : Nat) : List Token :=
  st.tokens.map (fun t =>
    if tokenUserId st t = some uid ∧ t.status = TokenStatus.active then
      { t with status := TokenStatus.revoked }
    else t)

def issuedRequest (st : State) (uid : Nat) (u : User) (newEmail : String) : ChangeRequest :=
  { cid := st.nextId, userId := uid, realmId := u.realmId,
    oldEmail := u.deliveryEmail, newEmail := newEmail }

def issuedToken (st : State) (key : String) : Token :=
  { key := key, requestId := st.nextId, status := .active,
    expiresAt := st.now + emailChangeTTL }

/-- The state after a successful issuance: the change request recorded, the
requesting user's other ACTIVE tokens revoked, the fresh token prepended,
and one confirmation email handed out. -/
def issuedState (st : State) (uid : Nat) (u : User) (newEmail key : String) : State :=
  { st with
      requests := issuedRequest st uid u newEmail :: st.requests,
      tokens := issuedToken st key :: revokeActiveFor st uid,
      nextId := st.nextId + 1,
      sentEmails := st.sentEmails + 1 }

def requestEmailChange (st : State) (uid : Nat) (newEmail : String) (key : String) :
    Except ChangeError (State × Option String) :=
  match findUser st uid with
  | none => .error .notFound
  | some u =>
    if emailValid newEmail = false then .error .invalidAddress
    else if newEmail = u.deliveryEmail then .ok (st, none)
    else
      match findRealm st u.realmId with
      | none => .error .notFound
      | some realm =>
        if realm.emailChangesDisabled = true ∧ u.isAdmin = false then
          .error .changesDisabled
        else
          match findUserByEmail st u.realmId newEmail with
          | some v => if v.active = true then .error .emailTaken else .error .targetAccountDeactivated
          | none => .ok (issuedState st uid u newEmail key, some key)

/-- The tokens of `st` with the presented key marked USED. -/
def markUsed (st : State) (key : String) : List Token :=
  st.tokens.map (fun t =>
    if t.key = key then { t with status := TokenStatus.used } else t)

/-- The state after a successful apply: the user's delivery email mutated
and the token marked USED, atomically. -/
def appliedState (st : State) (u : User) (newEmail key : String) : State :=
  { st with
      users := st.users.map (fun w =>
        if w.uid = u.uid then { w with deliveryEmail := newEmail } else w),
      tokens := markUsed st key }

/-- Modelled from the spec: the confirmation view (`confirm_new_email`,
absent from the excerpt): the Verifier of §4.2 (malformed, lookup,
expiration before status, status) followed by the Applier of §4.3
(user active, realm active, changes not disabled unless admin,
target address not held by an existing account — a deactivated holder
reports the account-deactivated message, an active holder `EmailTaken` —
and current domain policy), and on success the atomic email mutation
together with marking the token USED. -/
def confirm (st : State) (key : String) : Except ChangeError State :=
  if keyWellFormed key = false then .error .malformed
  else
    match findToken st key with
    | none => .error .notFound
    | some tok =>
      if tok.expiresAt < st.now then .error .expired
      else if tok.status ≠ TokenStatus.active then .error .alreadyUsed
      else
        match findRequest st tok.requestId with
        | none => .error .notFound
        | some req =>
          match findUser st req.userId with
          | none => .error .notFound
          | some u =>
            if u.active = false then .error .userDeactivated
            else
              match findRealm st u.realmId with
              | none => .error .notFound
              | some realm =>
                if realm.active = false then .error .realmDeactivated
                else if realm.emailChangesDisabled = true ∧ u.isAdmin = false then
                  .error .changesDisabled
                else
                  match findUserByEmail st u.realmId req.newEmail with
                  | some v =>
                    if v.active = true then .error .emailTaken
                    else .error .targetAccountDeactivated
                  | none =>
                    if realm.disallowDisposableEmailAddresses = true ∧
                        isDisposableEmail req.newEmail = true then
                      .error .disposableAddressRejected
                    else
                      .ok (appliedState st u req.newEmail key)

/-- Realm-settings mutation: `do_set_realm_property(realm, "email_changes_disabled", b)`. -/
def setEmailChangesDisabled (st : State) (rid : Nat) (b : Bool) : State :=
  { st with realms := st.realms.map (fun r =>
      if r.rid = rid then { r with emailChangesDisabled := b } else r) }

/-- Realm-settings mutation: setting `disallow_disposable_email_addresses`. -/
def setDisallowDisposable (st : State) (rid : Nat) (b : Bool) : State :=
  { st with realms := st.realms.map (fun r =>
      if r.rid = rid then { r with disallowDisposableEmailAddresses := b } else r) }

/-! ### Concrete example data, mirroring the fixtures of the test suite -/

/-- Realm 1: active, permissive. -/
def exRealm : Realm := ⟨1, true, false, false⟩
/-- Realm 2: active, email changes administratively disabled. -/
def exRealmDisabled : Realm := ⟨2, true, true, false⟩
/-- Realm 3: deactivated. -/
def exRealmDead : Realm := ⟨3, false, false, false⟩

/-- Non-admin active user in realm 1. -/
def exHamlet : User := ⟨1, 1, "hamlet@zulip.com", true, false, false⟩
/-- Admin active user in realm 1. -/
def exIago : User := ⟨2, 1, "iago@zulip.com", true, false, true⟩
/-- Deactivated mirror-dummy account in realm 1. -/
def exCordelia : User := ⟨3, 1, "cordelia@zulip.com", false, true, false⟩
/-- Non-admin active user in the changes-disabled realm 2. -/
def exOthello : User := ⟨4, 2, "othello@zulip.com", true, false, false⟩
/-- Admin active user in the changes-disabled realm 2. -/
def exProspero : User := ⟨5, 2, "prospero@zulip.com", true, false, true⟩
/-- Deactivated (non-dummy) user in the active realm 1. -/
def exOphelia : User := ⟨6, 1, "ophelia@zulip.com", false, false, false⟩
/-- Active user in the deactivated realm 3. -/
def exLear : User := ⟨7, 3, "lear@zulip.com", true, false, false⟩

def exKey1 : String := "abcdefghijklmnopqrstuvwx"
def exKey2 : String := "bbcdefghijklmnopqrstuvwx"
def exKey3 : String := "cccdefghijklmnopqrstuvwx"

/-- Base store: no pending requests or tokens. -/
def exState : State :=
  { realms := [exRealm, exRealmDisabled, exRealmDead],
    users := [exHamlet, exIago, exCordelia, exOthello, exProspero, exOphelia, exLear],
    requests := [], tokens := [], nextId := 20, now := 100, sentEmails := 0 }

/-- A pending change request for Hamlet with an ACTIVE, unexpired token. -/
def exReq1 : ChangeRequest := ⟨10, 1, 1, "hamlet@zulip.com", "hamlet-new@zulip.com"⟩
def exTok1 : Token := ⟨exKey1, 10, .active, 120⟩
def exStPending : State := { exState with requests := [exReq1], tokens := [exTok1] }

/-- The store after Hamlet's pending token has been confirmed once. -/
def exStUsedOnce : State :=
  match confirm exStPending exKey1 with
  | .ok s => s
  | .error _ => exStPending

/-- An additional already-USED change request of Hamlet, alongside the
pending one: the starting point for the reissue test. -/
def exReqOld : ChangeRequest := ⟨11, 1, 1, "hamlet-old@zulip.com", "hamlet@zulip.com"⟩
def exTokOld : Token := ⟨exKey2, 11, .used, 90⟩
def exStTwoTokens : State :=
  { exState with requests := [exReq1, exReqOld], tokens := [exTok1, exTokOld] }

/-- The store after Hamlet reissues a change request while `exStTwoTokens`
held one ACTIVE and one USED token for him. -/
def exStReissued : State :=
  match requestEmailChange exStTwoTokens 1 "hamlet-newest@zulip.com" exKey3 with
  | .ok (s, _) => s
  | .error _ => exStTwoTokens

/-- The store after Hamlet requests a change to a disposable address while
realm 1 still permits it. -/
def exStIssuedDisposable : State :=
  match requestEmailChange exState 1 "hamlet@mailnator.com" exKey1 with
  | .ok (s, _) => s
  | .error _ => exState

/-- The store after Hamlet requests an ordinary change under permissive
settings (for the amended C3 scenario). -/
def exStIssuedPlain : State :=
  match requestEmailChange exState 1 "hamlet-new@zulip.com" exKey1 with
  | .ok (s, _) => s
  | .error _ => exState

/-- Pending token whose TTL has elapsed: same store as `exStPending` but
observed at a later time. -/
def exStLate : State := { exStPending with now := 130 }

/-- Pending tokens for the deactivated user Ophelia (realm 1, active) and
for Lear (realm 3, deactivated). -/
def exReqOphelia : ChangeRequest := ⟨12, 6, 1, "ophelia@zulip.com", "ophelia-new@zulip.com"⟩
def exTokOphelia : Token := ⟨exKey2, 12, .active, 120⟩
def exReqLear : ChangeRequest := ⟨13, 7, 3, "lear@zulip.com", "lear-new@zulip.com"⟩
def exTokLear : Token := ⟨exKey3, 13, .active, 120⟩
def exStDeactivations : State :=
  { exState with
      requests := [exReqOphelia, exReqLear],
      tokens := [exTokOphelia, exTokLear] }

end EmailChange

namespace ExportCommand

/-!
Embedding of `Command.handle` from `zerver/management/commands/export.py`.
The filesystem and database facts `handle` consults are abstracted into
boolean fields; the side effects it performs are recorded in `Effects`.
-/

/-- The parsed command-line options `handle` reads (`options[...]` in the
source), together with the filesystem facts about the chosen output
location that the source queries (`os.path.exists`, `os.listdir`, and
whether `open(tarball_path, "x")` finds the tarball already present). -/
structure Options where
  threads : Int
  publicOnly : Bool
  exportFullWithConsent : Bool
  deactivateRealm : Bool
  force : Bool
  upload : Bool
  outputDirGiven : Bool
  outputDirExists : Bool
  outputDirNonempty : Bool
  tarballExists : Bool
deriving DecidableEq, Repr

/-- The database facts `handle` consults: whether the realm is already
deactivated, and the results of the two usability checks
(`check_export_with_consent_is_usable`, `check_public_export_is_usable`). -/
structure Env where
  realmDeactivated : Bool
  consentExportUsable : Bool
  publicExportUsable : Bool
deriving DecidableEq, Repr

/-- How `handle` terminates: the `assert` on line 129 failing, a raised
`CommandError`, or running to completion. -/
inductive Outcome where
  | assertionFailed
  | commandError (msg : String)
  | completed
deriving DecidableEq, Repr

/-- The side effects `handle` may have performed by the time it terminates. -/
structure Effects where
  madeOutputDir : Bool
  createdTarball : Bool
  deactivatedRealm : Bool
  createdRealmExportRow : Bool
  ranExport : Bool
deriving DecidableEq, Repr

def noEffects : Effects :=
  { madeOutputDir := false, createdTarball := false, deactivatedRealm := false,
    createdRealmExportRow := false, ranExport := false }

/-- `Command.handle` (export.py lines 122-208), with each check in source
order.  The `CommandError` on line 138 is kept even though the `assert` on
line 129 makes it unreachable.  Directory creation (`tempfile.mkdtemp` /
`os.makedirs`) and the empty-tarball creation (`open(tarball_path, "x")`)
happen before the usability check, so those effects are already recorded
when that check raises. -/
def handle (env : Env) (opts : Options) : Outcome × Effects :=
  if opts.publicOnly = true ∧ opts.exportFullWithConsent = true then
    (.assertionFailed, noEffects)
  else if opts.threads < 1 then
    (.commandError "You must have at least one thread.", noEffects)
  else if opts.publicOnly = true ∧ opts.exportFullWithConsent = true then
    (.commandError "Please pass either --public-only or --export-full-with-consennt", noEffects)
  else if opts.deactivateRealm = true ∧ env.realmDeactivated = true then
    (.commandError "The realm is already deactivated.  Aborting...", noEffects)
  else if opts.outputDirGiven = true ∧ opts.outputDirExists = true ∧
      opts.outputDirNonempty = true then
    (.commandError "Refusing to overwrite nonempty directory. Aborting...", noEffects)
  else if opts.tarballExists = true then
    (.commandError "Refusing to overwrite existing tarball. Aborting...",
      { noEffects with madeOutputDir := !opts.outputDirGiven || !opts.outputDirExists })
  else if opts.force = false ∧
      ((opts.exportFullWithConsent = true ∧ env.consentExportUsable = false) ∨
       (opts.publicOnly = true ∧ env.publicExportUsable = false)) then
    (.commandError
      "The generated export will not be a usable organization! You can pass --force to skip this check.",
      { noEffects with
          madeOutputDir := !opts.outputDirGiven || !opts.outputDirExists,
          createdTarball := true })
  else
    (.completed,
      { madeOutputDir := !opts.outputDirGiven || !opts.outputDirExists,
        createdTarball := true,
        deactivatedRealm := opts.deactivateRealm,
        createdRealmExportRow := true,
        ranExport := true })

/-- Whether the outcome is a raised `CommandError`. -/
def isCommandError : Outcome → Bool
  | .commandError _ => true
  | _ => false

/-- An invocation passing both `--public-only` and `--export-full-with-consent`
together with an invalid thread count. -/
def exBothFlagsOpts : Options :=
  { threads := 0, publicOnly := true, exportFullWithConsent := true,
    deactivateRealm := false, force := false, upload := false,
    outputDirGiven := false, outputDirExists := false,
    outputDirNonempty := false, tarballExists := false }

/-- An invocation whose only problem is a thread count of zero. -/
def exZeroThreadsOpts : Options :=
  { threads := 0, publicOnly := false, exportFullWithConsent := false,
    deactivateRealm := false, force := false, upload := false,
    outputDirGiven := false, outputDirExists := false,
    outputDirNonempty := false, tarballExists := false }

/-- An environment with an active realm and usable exports. -/
def exEnv : Env :=
  { realmDeactivated := false, consentExportUsable := true, publicExportUsable := true }

end ExportCommand

namespace EmailChange

/-! ### Helper lemmas -/

theorem find?_map_of_pres {α : Type} (f : α → α) (p : α → Bool)
    (hp : ∀ a, p (f a) = p a) (l : List α) :
    (l.map f).find? p = (l.find? p).map f := by
  induction l with
  | nil => rfl
  | cons a l ih =>
    by_cases h : p a = true
    · rw [List.map_cons, List.find?_cons_of_pos _ (by rw [hp]; exact h),
        List.find?_cons_of_pos _ h]
      rfl
    · rw [List.map_cons, List.find?_cons_of_neg _ (by rw [hp]; exact h),
        List.find?_cons_of_neg _ h, ih]

theorem findToken_issued_self (st : State) (uid : Nat) (u : User) (e k : String) :
    findToken (issuedState st uid u e k) k = some (issuedToken st k) := by
  show List.find? _ (issuedToken st k :: revokeActiveFor st uid) = _
  rw [List.find?_cons_of_pos _ (by simp [issuedToken])]

theorem findToken_issued_of_ne (st : State) (uid : Nat) (u : User) (e k k0 : String)
    (hne : k0 ≠ k) :
    findToken (issuedState st uid u e k) k0 =
      (findToken st k0).map (fun t =>
        if tokenUserId st t = some uid ∧ t.status = TokenStatus.active then
          { t with status := TokenStatus.revoked }
        else t) := by
  show List.find? _ (issuedToken st k :: revokeActiveFor st uid) = _
  rw [List.find?_cons_of_neg _ (by simp [issuedToken]; exact fun hc => hne hc.symm)]
  exact find?_map_of_pres _ _
    (fun a => by by_cases ha : tokenUserId st a = some uid ∧ a.status = TokenStatus.active
                 · rw [if_pos ha]
                 · rw [if_neg ha]) st.tokens

theorem findRequest_issued_self (st : State) (uid : Nat) (u : User) (e k : String) :
    findRequest (issuedState st uid u e k) st.nextId = some (issuedRequest st uid u e) := by
  show List.find? _ (issuedRequest st uid u e :: st.requests) = _
  rw [List.find?_cons_of_pos _ (by simp [issuedRequest])]

theorem findRequest_issued_of_ne (st : State) (uid : Nat) (u : User) (e k : String)
    (c : Nat) (hne : c ≠ st.nextId) :
    findRequest (issuedState st uid u e k) c = findRequest st c := by
  show List.find? _ (issuedRequest st uid u e :: st.requests) = _
  rw [List.find?_cons_of_neg _ (by simp [issuedRequest]; exact fun hc => hne hc.symm)]
  rfl

theorem findToken_applied (st : State) (u : User) (e k : String) (tok : Token)
    (hft : findToken st k = some tok) :
    findToken (appliedState st u e k) k = some { tok with status := TokenStatus.used } := by
  have htk : tok.key = k := by simpa using List.find?_some hft
  show (markUsed st k).find? _ = _
  unfold markUsed
  rw [find?_map_of_pres _ _
    (fun a => by by_cases ha : a.key = k
                 · rw [if_pos ha]
                 · rw [if_neg ha]) st.tokens]
  show (findToken st k).map _ = _
  rw [hft]
  simp [htk]

theorem findRealm_setDisabled (st : State) (rid : Nat) (b : Bool) (r : Nat) :
    findRealm (setEmailChangesDisabled st rid b) r =
      (findRealm st r).map (fun x =>
        if x.rid = rid then { x with emailChangesDisabled := b } else x) := by
  show (st.realms.map _).find? _ = _
  exact find?_map_of_pres _ _
    (fun a => by by_cases ha : a.rid = rid
                 · rw [if_pos ha]
                 · rw [if_neg ha]) st.realms

theorem findRealm_setDisallow (st : State) (rid : Nat) (b : Bool) (r : Nat) :
    findRealm (setDisallowDisposable st rid b) r =
      (findRealm st r).map (fun x =>
        if x.rid = rid then { x with disallowDisposableEmailAddresses := b } else x) := by
  show (st.realms.map _).find? _ = _
  exact find?_map_of_pres _ _
    (fun a => by by_cases ha : a.rid = rid
                 · rw [if_pos ha]
                 · rw [if_neg ha]) st.realms

/-- Inversion of a successful issuance: the checks that must have passed
and the shape of the resulting state. -/
theorem requestOk_spec (st st1 : State) (uid : Nat) (e k : String)
    (h : requestEmailChange st uid e k = Except.ok (st1, some k)) :
    ∃ u realm, findUser st uid = some u ∧ emailValid e = true ∧ e ≠ u.deliveryEmail ∧
      findRealm st u.realmId = some realm ∧
      ¬(realm.emailChangesDisabled = true ∧ u.isAdmin = false) ∧
      findUserByEmail st u.realmId e = none ∧
      st1 = issuedState st uid u e k := by
  unfold requestEmailChange at h
  split at h
  · exact absurd h (by simp)
  next u hu =>
  split at h
  next hval => exact absurd h (by simp)
  next hval =>
  split at h
  next hsame => exact absurd h (by simp)
  next hsame =>
  split at h
  · exact absurd h (by simp)
  next realm hr =>
  split at h
  next hdis => exact absurd h (by simp)
  next hdis =>
  split at h
  next v hv => split at h <;> exact absurd h (by simp)
  next hnv =>
  injection h with h
  injection h with h1 h2
  refine ⟨u, realm, hu, ?_, hsame, hr, hdis, hnv, h1.symm⟩
  cases hq : emailValid e with
  | false => exact absurd hq hval
  | true => rfl

/-- Inversion of a successful confirmation: the verifier checks that must
have passed and the shape of the resulting state. -/
theorem confirmOk_spec (st st1 : State) (k : String) (h : confirm st k = Except.ok st1) :
    keyWellFormed k = true ∧
    ∃ tok req u, findToken st k = some tok ∧ ¬ tok.expiresAt < st.now ∧
      tok.status = TokenStatus.active ∧
      findRequest st tok.requestId = some req ∧ findUser st req.userId = some u ∧
      st1 = appliedState st u req.newEmail k := by
  unfold confirm at h
  split at h
  next hwf => exact absurd h (by simp)
  next hwf =>
  split at h
  · exact absurd h (by simp)
  next tok hft =>
  split at h
  next hexp => exact absurd h (by simp)
  next hexp =>
  split at h
  next hst => exact absurd h (by simp)
  next hst =>
  split at h
  · exact absurd h (by simp)
  next req hrq =>
  split at h
  · exact absurd h (by simp)
  next u hu =>
  split at h
  next hua => exact absurd h (by simp)
  next hua =>
  split at h
  · exact absurd h (by simp)
  next realm hr =>
  split at h
  next hra => exact absurd h (by simp)
  next hra =>
  split at h
  next hdis => exact absurd h (by simp)
  next hdis =>
  split at h
  next v hv => split at h <;> exact absurd h (by simp)
  next hnv =>
  split at h
  next hdisp => exact absurd h (by simp)
  next hdisp =>
  injection h with h
  refine ⟨?_, tok, req, u, hft, hexp, ?_, hrq, hu, h.symm⟩
  · cases hq : keyWellFormed k with
    | false => exact absurd hq hwf
    | true => rfl
  · by_contra hc
    exact hst hc

/-- After a successful issuance, disabling email changes for the user's
realm makes the confirmation fail with `ChangesDisabled`. -/
theorem confirm_after_disable (st st1 : State) (uid : Nat) (e k : String)
    (u : User) (realm : Realm)
    (hu : findUser st uid = some u) (hua : u.active = true) (hadm : u.isAdmin = false)
    (hr : findRealm st u.realmId = some realm) (hra : realm.active = true)
    (hwf : keyWellFormed k = true)
    (h : requestEmailChange st uid e k = Except.ok (st1, some k)) :
    confirm (setEmailChangesDisabled st1 u.realmId true) k =
      Except.error ChangeError.changesDisabled := by
  obtain ⟨u2, realm2, hu2, hval, hne, hr2, hdis2, hnv2, hst1⟩ := requestOk_spec st st1 uid e k h
  rw [hu] at hu2
  injection hu2 with hu2
  subst hu2
  rw [hr] at hr2
  injection hr2 with hr2
  subst hr2
  subst hst1
  have hrid : realm.rid = u.realmId := by simpa using List.find?_some hr
  have hftS : findToken (setEmailChangesDisabled (issuedState st uid u e k) u.realmId true) k
      = some (issuedToken st k) := findToken_issued_self st uid u e k
  have hrqS : findRequest (setEmailChangesDisabled (issuedState st uid u e k) u.realmId true)
      st.nextId = some (issuedRequest st uid u e) := findRequest_issued_self st uid u e k
  have huS : findUser (setEmailChangesDisabled (issuedState st uid u e k) u.realmId true)
      uid = some u := hu
  have hrS : findRealm (setEmailChangesDisabled (issuedState st uid u e k) u.realmId true)
      u.realmId = some { realm with emailChangesDisabled := true } := by
    rw [findRealm_setDisabled]
    show (findRealm st u.realmId).map _ = _
    rw [hr]
    simp [hrid]
  have hnow : (setEmailChangesDisabled (issuedState st uid u e k) u.realmId true).now
      = st.now := rfl
  have hexpS : ¬ st.now + emailChangeTTL < st.now := by omega
  unfold confirm
  rw [hwf, hftS]
  simp [issuedToken, issuedRequest, hnow, hexpS, hrqS, huS, hua, hrS, hadm, hra]

/-- After a successful issuance, turning on disposable-address rejection for
the user's realm makes the confirmation of a disposable address fail with
`DisposableAddressRejected`. -/
theorem confirm_after_disallow (st st1 : State) (uid : Nat) (e k : String)
    (u : User) (realm : Realm)
    (hu : findUser st uid = some u) (hua : u.active = true) (hadm : u.isAdmin = false)
    (hr : findRealm st u.realmId = some realm) (hra : realm.active = true)
    (hwf : keyWellFormed k = true) (hd : isDisposableEmail e = true)
    (h : requestEmailChange st uid e k = Except.ok (st1, some k)) :
    confirm (setDisallowDisposable st1 u.realmId true) k =
      Except.error ChangeError.disposableAddressRejected := by
  obtain ⟨u2, realm2, hu2, hval, hne, hr2, hdis2, hnv2, hst1⟩ := requestOk_spec st st1 uid e k h
  rw [hu] at hu2
  injection hu2 with hu2
  subst hu2
  rw [hr] at hr2
  injection hr2 with hr2
  subst hr2
  subst hst1
  have hrid : realm.rid = u.realmId := by simpa using List.find?_some hr
  have hed : realm.emailChangesDisabled = false := by
    cases hq : realm.emailChangesDisabled
    · rfl
    · exact absurd ⟨hq, hadm⟩ hdis2
  have hftS : findToken (setDisallowDisposable (issuedState st uid u e k) u.realmId true) k
      = some (issuedToken st k) := findToken_issued_self st uid u e k
  have hrqS : findRequest (setDisallowDisposable (issuedState st uid u e k) u.realmId true)
      st.nextId = some (issuedRequest st uid u e) := findRequest_issued_self st uid u e k
  have huS : findUser (setDisallowDisposable (issuedState st uid u e k) u.realmId true)
      uid = some u := hu
  have hrS : findRealm (setDisallowDisposable (issuedState st uid u e k) u.realmId true)
      u.realmId = some { realm with disallowDisposableEmailAddresses := true } := by
    rw [findRealm_setDisallow]
    show (findRealm st u.realmId).map _ = _
    rw [hr]
    simp [hrid]
  have hnvS : findUserByEmail (setDisallowDisposable (issuedState st uid u e k) u.realmId true)
      u.realmId e = none := hnv2
  have hnow : (setDisallowDisposable (issuedState st uid u e k) u.realmId true).now
      = st.now := rfl
  have hexpS : ¬ st.now + emailChangeTTL < st.now := by omega
  unfold confirm
  rw [hwf, hftS]
  simp [issuedToken, issuedRequest, hnow, hexpS, hrqS, huS, hua, hrS, hadm, hra, hed, hnvS, hd]

/-- After a successful issuance, if the realm settings stay permissive the
confirmation of the issued token succeeds. -/
theorem confirm_issued_plain_ok (st st1 : State) (uid : Nat) (e k : String)
    (u : User) (realm : Realm)
    (hu : findUser st uid = some u) (hua : u.active = true) (hadm : u.isAdmin = false)
    (hr : findRealm st u.realmId = some realm) (hra : realm.active = true)
    (hdd : realm.disallowDisposableEmailAddresses = false)
    (hwf : keyWellFormed k = true)
    (h : requestEmailChange st uid e k = Except.ok (st1, some k)) :
    ∃ s2, confirm st1 k = Except.ok s2 := by
  obtain ⟨u2, realm2, hu2, hval, hne, hr2, hdis2, hnv2, hst1⟩ := requestOk_spec st st1 uid e k h
  rw [hu] at hu2
  injection hu2 with hu2
  subst hu2
  rw [hr] at hr2
  injection hr2 with hr2
  subst hr2
  subst hst1
  have hed : realm.emailChangesDisabled = false := by
    cases hq : realm.emailChangesDisabled
    · rfl
    · exact absurd ⟨hq, hadm⟩ hdis2
  have hftS : findToken (issuedState st uid u e k) k = some (issuedToken st k) :=
    findToken_issued_self st uid u e k
  have hrqS : findRequest (issuedState st uid u e k) st.nextId =
      some (issuedRequest st uid u e) := findRequest_issued_self st uid u e k
  have huS : findUser (issuedState st uid u e k) uid = some u := hu
  have hrS : findRealm (issuedState st uid u e k) u.realmId = some realm := hr
  have hnvS : findUserByEmail (issuedState st uid u e k) u.realmId e = none := hnv2
  have hnow : (issuedState st uid u e k).now = st.now := rfl
  have hexpS : ¬ st.now + emailChangeTTL < st.now := by omega
  refine ⟨appliedState (issuedState st uid u e k) u e k, ?_⟩
  unfold confirm
  rw [hwf, hftS]
  simp [issuedToken, issuedRequest, hnow, hexpS, hrqS, huS, hua, hrS, hadm, hra, hed, hnvS, hdd]

/-! ### Claim theorems -/

/-- **C1.** For every issued confirmation token that has been successfully
used to apply an email change, a second presentation of the same token never
succeeds: the second attempt fails with the AlreadyUsed (NotFound-class,
HTTP 404) error, and since the failure produces no new state the user's
delivery email is left unchanged from the value set by the first use. -/
theorem c1_reused_link_rejected (st st1 : State) (k : String)
    (h : confirm st k = Except.ok st1) :
    confirm st1 k = Except.error ChangeError.alreadyUsed ∧
    errorHttpStatus ChangeError.alreadyUsed = 404 ∧
    ∀ s2, confirm st1 k ≠ Except.ok s2 := by
  obtain ⟨hwf, tok, req, u, hft, hexp, hact, hrq, hu, hst1⟩ := confirmOk_spec st st1 k h
  subst hst1
  have hfind := findToken_applied st u req.newEmail k tok hft
  have hnow : (appliedState st u req.newEmail k).now = st.now := rfl
  have hmain : confirm (appliedState st u req.newEmail k) k =
      Except.error ChangeError.alreadyUsed := by
    unfold confirm
    rw [hwf, hfind]
    simp [hnow, hexp]
  exact ⟨hmain, rfl, fun s2 hc => by rw [hmain] at hc; exact Except.noConfusion hc⟩

/-- Witness for C1: Hamlet's pending token is confirmed once and the same
link is then presented again. -/
theorem c1_reused_link_rejected_witness :
    confirm exStPending exKey1 = Except.ok exStUsedOnce ∧
    (confirm exStUsedOnce exKey1 = Except.error ChangeError.alreadyUsed ∧
     errorHttpStatus ChangeError.alreadyUsed = 404 ∧
     ∀ s2, confirm exStUsedOnce exKey1 ≠ Except.ok s2) :=
  ⟨rfl, c1_reused_link_rejected exStPending exStUsedOnce exKey1 rfl⟩

/-- **C5.** A change request whose target email already belongs to a
deactivated mirror-dummy account in the realm is rejected with the
account-deactivated message ("Account has been deactivated.") rather than
the EmailTaken error ("Already has an account"): the
existing-account-with-target-email check precedes treating the address as
available. -/
theorem c5_deactivated_holder_blocks_reuse (st : State) (uid : Nat) (e k : String)
    (u v : User) (realm : Realm)
    (hu : findUser st uid = some u) (hval : emailValid e = true)
    (hne : e ≠ u.deliveryEmail) (hr : findRealm st u.realmId = some realm)
    (hnd : ¬(realm.emailChangesDisabled = true ∧ u.isAdmin = false))
    (hv : findUserByEmail st u.realmId e = some v)
    (hvd : v.active = false) (hmd : v.isMirrorDummy = true) :
    requestEmailChange st uid e k = Except.error ChangeError.targetAccountDeactivated ∧
    requestEmailChange st uid e k ≠ Except.error ChangeError.emailTaken ∧
    errorMessage ChangeError.targetAccountDeactivated = "Account has been deactivated." ∧
    errorMessage ChangeError.emailTaken = "Already has an account" := by
  have hmain : requestEmailChange st uid e k =
      Except.error ChangeError.targetAccountDeactivated := by
    unfold requestEmailChange
    simp [hu, hval, hne, hr, hnd, hv, hvd]
  refine ⟨hmain, ?_, rfl, rfl⟩
  rw [hmain]
  simp

/-- Witness for C5: Hamlet requests the address of the deactivated
mirror-dummy Cordelia. -/
theorem c5_deactivated_holder_blocks_reuse_witness :
    findUser exState 1 = some exHamlet ∧ emailValid "cordelia@zulip.com" = true ∧
    "cordelia@zulip.com" ≠ exHamlet.deliveryEmail ∧
    findRealm exState exHamlet.realmId = some exRealm ∧
    ¬(exRealm.emailChangesDisabled = true ∧ exHamlet.isAdmin = false) ∧
    findUserByEmail exState exHamlet.realmId "cordelia@zulip.com" = some exCordelia ∧
    exCordelia.active = false ∧ exCordelia.isMirrorDummy = true ∧
    (requestEmailChange exState 1 "cordelia@zulip.com" exKey1 =
       Except.error ChangeError.targetAccountDeactivated ∧
     requestEmailChange exState 1 "cordelia@zulip.com" exKey1 ≠
       Except.error ChangeError.emailTaken ∧
     errorMessage ChangeError.targetAccountDeactivated = "Account has been deactivated." ∧
     errorMessage ChangeError.emailTaken = "Already has an account") :=
  ⟨rfl, rfl, by decide, rfl, by decide, rfl, rfl, rfl,
    c5_deactivated_holder_blocks_reuse exState 1 "cordelia@zulip.com" exKey1
      exHamlet exCordelia exRealm rfl rfl (by decide) rfl
      (by decide) rfl rfl rfl⟩

/-- **C6.** A token whose TTL has elapsed when presented fails verification
with the Expired error (HTTP 404, expiration message), even if otherwise
valid and never used, and no state change occurs, so the user's email is
unchanged. -/
theorem c6_expired_token_rejected (st : State) (k : String) (tok : Token)
    (hwf : keyWellFormed k = true) (hft : findToken st k = some tok)
    (hexp : tok.expiresAt < st.now) :
    confirm st k = Except.error ChangeError.expired ∧
    errorHttpStatus ChangeError.expired = 404 ∧
    errorMessage ChangeError.expired = "The confirmation link has expired or been deactivated." ∧
    ∀ s2, confirm st k ≠ Except.ok s2 := by
  have hmain : confirm st k = Except.error ChangeError.expired := by
    unfold confirm
    simp [hwf, hft, hexp]
  exact ⟨hmain, rfl, rfl, fun s2 hc => by rw [hmain] at hc; exact Except.noConfusion hc⟩

/-- Witness for C6: Hamlet's pending token presented after its expiration
time. -/
theorem c6_expired_token_rejected_witness :
    keyWellFormed exKey1 = true ∧ findToken exStLate exKey1 = some exTok1 ∧
    exTok1.expiresAt < exStLate.now ∧
    (confirm exStLate exKey1 = Except.error ChangeError.expired ∧
     errorHttpStatus ChangeError.expired = 404 ∧
     errorMessage ChangeError.expired = "The confirmation link has expired or been deactivated." ∧
     ∀ s2, confirm exStLate exKey1 ≠ Except.ok s2) :=
  ⟨rfl, rfl, by decide,
    c6_expired_token_rejected exStLate exKey1 exTok1 rfl rfl (by decide)⟩

/-- **C7.** At apply time, a deactivated target user and a deactivated
owning realm produce distinct caller-visible failures: HTTP 401 with the
"Account is deactivated" page for the user case, versus an HTTP 302
redirect to the realm-deactivated page for the realm case; in the
deactivated-user case no state change occurs, so the user's email is
unchanged. -/
theorem c7_deactivated_user_vs_realm (st : State) (kU kR : String)
    (tokU tokR : Token) (reqU reqR : ChangeRequest) (uU uR : User) (realmR : Realm)
    (hwfU : keyWellFormed kU = true) (hftU : findToken st kU = some tokU)
    (hexpU : ¬ tokU.expiresAt < st.now) (hactU : tokU.status = TokenStatus.active)
    (hrqU : findRequest st tokU.requestId = some reqU)
    (huU : findUser st reqU.userId = some uU) (hdU : uU.active = false)
    (hwfR : keyWellFormed kR = true) (hftR : findToken st kR = some tokR)
    (hexpR : ¬ tokR.expiresAt < st.now) (hactR : tokR.status = TokenStatus.active)
    (hrqR : findRequest st tokR.requestId = some reqR)
    (huR : findUser st reqR.userId = some uR) (haR : uR.active = true)
    (hrR : findRealm st uR.realmId = some realmR) (hdR : realmR.active = false) :
    confirm st kU = Except.error ChangeError.userDeactivated ∧
    errorHttpStatus ChangeError.userDeactivated = 401 ∧
    errorMessage ChangeError.userDeactivated = "Account is deactivated" ∧
    confirm st kR = Except.error ChangeError.realmDeactivated ∧
    errorHttpStatus ChangeError.realmDeactivated = 302 ∧
    errorRedirect ChangeError.realmDeactivated = some "/accounts/deactivated/" ∧
    errorHttpStatus ChangeError.userDeactivated ≠ errorHttpStatus ChangeError.realmDeactivated ∧
    (∀ s2, confirm st kU ≠ Except.ok s2) := by
  have h1 : confirm st kU = Except.error ChangeError.userDeactivated := by
    unfold confirm
    simp [hwfU, hftU, hexpU, hactU, hrqU, huU, hdU]
  have h2 : confirm st kR = Except.error ChangeError.realmDeactivated := by
    unfold confirm
    simp [hwfR, hftR, hexpR, hactR, hrqR, huR, haR, hrR, hdR]
  exact ⟨h1, rfl, rfl, h2, rfl, rfl, by decide,
    fun s2 hc => by rw [h1] at hc; exact Except.noConfusion hc⟩

/-- Witness for C7: pending tokens of the deactivated user Ophelia (active
realm 1) and of Lear, whose realm 3 is deactivated. -/
theorem c7_deactivated_user_vs_realm_witness :
    keyWellFormed exKey2 = true ∧ findToken exStDeactivations exKey2 = some exTokOphelia ∧
    ¬ exTokOphelia.expiresAt < exStDeactivations.now ∧
    exTokOphelia.status = TokenStatus.active ∧
    findRequest exStDeactivations exTokOphelia.requestId = some exReqOphelia ∧
    findUser exStDeactivations exReqOphelia.userId = some exOphelia ∧
    exOphelia.active = false ∧
    keyWellFormed exKey3 = true ∧ findToken exStDeactivations exKey3 = some exTokLear ∧
    ¬ exTokLear.expiresAt < exStDeactivations.now ∧
    exTokLear.status = TokenStatus.active ∧
    findRequest exStDeactivations exTokLear.requestId = some exReqLear ∧
    findUser exStDeactivations exReqLear.userId = some exLear ∧
    exLear.active = true ∧
    findRealm exStDeactivations exLear.realmId = some exRealmDead ∧
    exRealmDead.active = false ∧
    (confirm exStDeactivations exKey2 = Except.error ChangeError.userDeactivated ∧
     errorHttpStatus ChangeError.userDeactivated = 401 ∧
     errorMessage ChangeError.userDeactivated = "Account is deactivated" ∧
     confirm exStDeactivations exKey3 = Except.error ChangeError.realmDeactivated ∧
     errorHttpStatus ChangeError.realmDeactivated = 302 ∧
     errorRedirect ChangeError.realmDeactivated = some "/accounts/deactivated/" ∧
     errorHttpStatus ChangeError.userDeactivated ≠ errorHttpStatus ChangeError.realmDeactivated ∧
    (∀ s2, confirm exStDeactivations exKey2 ≠ Except.ok s2)) :=
  ⟨rfl, rfl, by decide, rfl, rfl, rfl, rfl,
   rfl, rfl, by decide, rfl, rfl, rfl, rfl,
   rfl, rfl,
   c7_deactivated_user_vs_realm exStDeactivations exKey2 exKey3
     exTokOphelia exTokLear exReqOphelia exReqLear exOphelia exLear exRealmDead
     rfl rfl (by decide) rfl rfl rfl rfl
     rfl rfl (by decide) rfl rfl rfl rfl
     rfl rfl⟩

/-- **C8.** A presented key that is malformed and one that is well-formed
but absent from the store both fail with NotFound-class behavior: HTTP 404
and no state change; the two cases differ only in the diagnostic message
("The confirmation link is malformed." versus "We couldn't find your
confirmation link in the system."). -/
theorem c8_malformed_vs_absent (st : State) (kBad kAbsent : String)
    (hbad : keyWellFormed kBad = false)
    (hgood : keyWellFormed kAbsent = true)
    (habsent : findToken st kAbsent = none) :
    confirm st kBad = Except.error ChangeError.malformed ∧
    confirm st kAbsent = Except.error ChangeError.notFound ∧
    errorHttpStatus ChangeError.malformed = 404 ∧
    errorHttpStatus ChangeError.notFound = 404 ∧
    errorMessage ChangeError.malformed ≠ errorMessage ChangeError.notFound ∧
    (∀ s2, confirm st kBad ≠ Except.ok s2) ∧
    (∀ s2, confirm st kAbsent ≠ Except.ok s2) := by
  have h1 : confirm st kBad = Except.error ChangeError.malformed := by
    unfold confirm
    simp [hbad]
  have h2 : confirm st kAbsent = Except.error ChangeError.notFound := by
    unfold confirm
    simp [hgood, habsent]
  exact ⟨h1, h2, rfl, rfl, by decide,
    fun s2 hc => by rw [h1] at hc; exact Except.noConfusion hc,
    fun s2 hc => by rw [h2] at hc; exact Except.noConfusion hc⟩

/-- Witness for C8: the literal malformed key of the test suite, and a
well-formed key absent from Hamlet's store. -/
theorem c8_malformed_vs_absent_witness :
    keyWellFormed "invalid_key" = false ∧ keyWellFormed exKey2 = true ∧
    findToken exStPending exKey2 = none ∧
    (confirm exStPending "invalid_key" = Except.error ChangeError.malformed ∧
     confirm exStPending exKey2 = Except.error ChangeError.notFound ∧
     errorHttpStatus ChangeError.malformed = 404 ∧
     errorHttpStatus ChangeError.notFound = 404 ∧
     errorMessage ChangeError.malformed ≠ errorMessage ChangeError.notFound ∧
     (∀ s2, confirm exStPending "invalid_key" ≠ Except.ok s2) ∧
     (∀ s2, confirm exStPending exKey2 ≠ Except.ok s2)) :=
  ⟨rfl, rfl, rfl,
    c8_malformed_vs_absent exStPending "invalid_key" exKey2
      rfl rfl rfl⟩

/-- **C9.** When the realm has email changes administratively disabled, a
change request by a non-administrator fails with ChangesDisabled ("Email
address changes are disabled in this organization.", HTTP 400) and — the
failure producing no state — no confirmation email is sent, while the same
request by an administrator of an equally disabled realm succeeds. -/
theorem c9_disabled_blocks_nonadmin_not_admin (st : State) (uidN uidA : Nat)
    (eN eA kN kA : String) (uN uA : User) (rN rA : Realm)
    (huN : findUser st uidN = some uN) (hadmN : uN.isAdmin = false)
    (hvalN : emailValid eN = true) (hneN : eN ≠ uN.deliveryEmail)
    (hrN : findRealm st uN.realmId = some rN) (hdisN : rN.emailChangesDisabled = true)
    (huA : findUser st uidA = some uA) (hadmA : uA.isAdmin = true)
    (hvalA : emailValid eA = true) (hneA : eA ≠ uA.deliveryEmail)
    (hrA : findRealm st uA.realmId = some rA) (hdisA : rA.emailChangesDisabled = true)
    (htakenA : findUserByEmail st uA.realmId eA = none) :
    (requestEmailChange st uidN eN kN = Except.error ChangeError.changesDisabled ∧
     errorMessage ChangeError.changesDisabled =
       "Email address changes are disabled in this organization." ∧
     errorHttpStatus ChangeError.changesDisabled = 400 ∧
     (∀ s r, requestEmailChange st uidN eN kN ≠ Except.ok (s, r))) ∧
    (∃ st1, requestEmailChange st uidA eA kA = Except.ok (st1, some kA)) := by
  have h1 : requestEmailChange st uidN eN kN = Except.error ChangeError.changesDisabled := by
    unfold requestEmailChange
    simp [huN, hvalN, hneN, hrN, hdisN, hadmN]
  have h2 : requestEmailChange st uidA eA kA =
      Except.ok (issuedState st uidA uA eA kA, some kA) := by
    unfold requestEmailChange
    simp [huA, hvalA, hneA, hrA, hadmA, htakenA]
  exact ⟨⟨h1, rfl, rfl, fun s r hc => by rw [h1] at hc; exact Except.noConfusion hc⟩,
    ⟨issuedState st uidA uA eA kA, h2⟩⟩

/-- Witness for C9: Othello (non-admin) and Prospero (admin), both in the
changes-disabled realm 2. -/
theorem c9_disabled_blocks_nonadmin_not_admin_witness :
    findUser exState 4 = some exOthello ∧ exOthello.isAdmin = false ∧
    emailValid "othello-new@zulip.com" = true ∧
    "othello-new@zulip.com" ≠ exOthello.deliveryEmail ∧
    findRealm exState exOthello.realmId = some exRealmDisabled ∧
    exRealmDisabled.emailChangesDisabled = true ∧
    findUser exState 5 = some exProspero ∧ exProspero.isAdmin = true ∧
    emailValid "prospero-new@zulip.com" = true ∧
    "prospero-new@zulip.com" ≠ exProspero.deliveryEmail ∧
    findRealm exState exProspero.realmId = some exRealmDisabled ∧
    exRealmDisabled.emailChangesDisabled = true ∧
    findUserByEmail exState exProspero.realmId "prospero-new@zulip.com" = none ∧
    ((requestEmailChange exState 4 "othello-new@zulip.com" exKey1 =
        Except.error ChangeError.changesDisabled ∧
      errorMessage ChangeError.changesDisabled =
        "Email address changes are disabled in this organization." ∧
      errorHttpStatus ChangeError.changesDisabled = 400 ∧
      (∀ s r, requestEmailChange exState 4 "othello-new@zulip.com" exKey1 ≠
        Except.ok (s, r))) ∧
     (∃ st1, requestEmailChange exState 5 "prospero-new@zulip.com" exKey2 =
        Except.ok (st1, some exKey2))) :=
  ⟨rfl, rfl, rfl, by decide, rfl, rfl, rfl,
   rfl, rfl, by decide, rfl, rfl, rfl,
   c9_disabled_blocks_nonadmin_not_admin exState 4 5
     "othello-new@zulip.com" "prospero-new@zulip.com" exKey1 exKey2
     exOthello exProspero exRealmDisabled exRealmDisabled
     rfl rfl rfl (by decide) rfl rfl
     rfl rfl rfl (by decide) rfl rfl
     rfl⟩

/-- **C2.** At most one ACTIVE email-change token exists per user after a
reissue: a successful new request revokes every prior ACTIVE token of that
user (whose links subsequently fail verification with an HTTP 404 outcome
even though never used), leaves tokens already in USED status untouched
(they remain USED), and leaves the fresh token as the only ACTIVE one for
that user. -/
theorem c2_reissue_revokes_prior_active (st st1 : State) (uid : Nat) (e k : String)
    (hfresh : ∀ t ∈ st.tokens, t.requestId ≠ st.nextId)
    (h : requestEmailChange st uid e k = Except.ok (st1, some k)) :
    (∀ t ∈ st.tokens, t.status = TokenStatus.used → t ∈ st1.tokens) ∧
    (∀ k0 t0, k0 ≠ k → keyWellFormed k0 = true → findToken st k0 = some t0 →
      tokenUserId st t0 = some uid → t0.status = TokenStatus.active →
      { t0 with status := TokenStatus.revoked } ∈ st1.tokens ∧
      ∃ e0, confirm st1 k0 = Except.error e0 ∧ errorHttpStatus e0 = 404) ∧
    (∀ t ∈ st1.tokens, t.status = TokenStatus.active → tokenUserId st1 t = some uid →
      t.key = k) := by
  obtain ⟨u, realm, hu, hval, hne, hr, hdis, hnv, hst1⟩ := requestOk_spec st st1 uid e k h
  subst hst1
  refine ⟨?_, ?_, ?_⟩
  · intro t ht hused
    have hcond : ¬ (tokenUserId st t = some uid ∧ t.status = TokenStatus.active) := by
      rintro ⟨-, ha⟩
      rw [hused] at ha
      cases ha
    have hmm := List.mem_map_of_mem (fun t0 =>
      if tokenUserId st t0 = some uid ∧ t0.status = TokenStatus.active then
        { t0 with status := TokenStatus.revoked } else t0) ht
    have heq : (fun t0 =>
        if tokenUserId st t0 = some uid ∧ t0.status = TokenStatus.active then
          { t0 with status := TokenStatus.revoked } else t0) t = t := if_neg hcond
    rw [heq] at hmm
    show t ∈ issuedToken st k :: revokeActiveFor st uid
    exact List.mem_cons_of_mem _ hmm
  · intro k0 t0 hk0 hwf0 hft0 huid0 hact0
    have hmem : t0 ∈ st.tokens := List.mem_of_find?_eq_some hft0
    have hmm := List.mem_map_of_mem (fun t1 =>
      if tokenUserId st t1 = some uid ∧ t1.status = TokenStatus.active then
        { t1 with status := TokenStatus.revoked } else t1) hmem
    have heq : (fun t1 =>
        if tokenUserId st t1 = some uid ∧ t1.status = TokenStatus.active then
          { t1 with status := TokenStatus.revoked } else t1) t0 =
        { t0 with status := TokenStatus.revoked } := if_pos ⟨huid0, hact0⟩
    rw [heq] at hmm
    refine ⟨List.mem_cons_of_mem _ hmm, ?_⟩
    have hfS : findToken (issuedState st uid u e k) k0 =
        some { t0 with status := TokenStatus.revoked } := by
      rw [findToken_issued_of_ne st uid u e k k0 hk0, hft0]
      simp [huid0, hact0]
    have hnow : (issuedState st uid u e k).now = st.now := rfl
    by_cases hexp0 : t0.expiresAt < st.now
    · refine ⟨ChangeError.expired, ?_, rfl⟩
      unfold confirm
      rw [hwf0, hfS]
      simp [hnow, hexp0]
    · refine ⟨ChangeError.alreadyUsed, ?_, rfl⟩
      unfold confirm
      rw [hwf0, hfS]
      simp [hnow, hexp0]
  · intro t ht hact huid
    have ht2 : t ∈ issuedToken st k :: revokeActiveFor st uid := ht
    rcases List.mem_cons.mp ht2 with h1 | h1
    · rw [h1]
      rfl
    · unfold revokeActiveFor at h1
      obtain ⟨t0, ht0, hft⟩ := List.mem_map.mp h1
      by_cases hcond : tokenUserId st t0 = some uid ∧ t0.status = TokenStatus.active
      · rw [if_pos hcond] at hft
        rw [← hft] at hact
        exact TokenStatus.noConfusion hact
      · rw [if_neg hcond] at hft
        subst hft
        exfalso
        apply hcond
        refine ⟨?_, hact⟩
        have hreq : findRequest (issuedState st uid u e k) t0.requestId =
            findRequest st t0.requestId :=
          findRequest_issued_of_ne st uid u e k t0.requestId (hfresh t0 ht0)
        unfold tokenUserId at huid ⊢
        rwa [hreq] at huid

/-- Witness for C2: Hamlet holds one ACTIVE and one USED token and then
issues a fresh request. -/
theorem c2_reissue_revokes_prior_active_witness :
    (∀ t ∈ exStTwoTokens.tokens, t.requestId ≠ exStTwoTokens.nextId) ∧
    requestEmailChange exStTwoTokens 1 "hamlet-newest@zulip.com" exKey3 =
      Except.ok (exStReissued, some exKey3) ∧
    ((∀ t ∈ exStTwoTokens.tokens, t.status = TokenStatus.used → t ∈ exStReissued.tokens) ∧
     (∀ k0 t0, k0 ≠ exKey3 → keyWellFormed k0 = true →
       findToken exStTwoTokens k0 = some t0 →
       tokenUserId exStTwoTokens t0 = some 1 → t0.status = TokenStatus.active →
       { t0 with status := TokenStatus.revoked } ∈ exStReissued.tokens ∧
       ∃ e0, confirm exStReissued k0 = Except.error e0 ∧ errorHttpStatus e0 = 404) ∧
     (∀ t ∈ exStReissued.tokens, t.status = TokenStatus.active →
       tokenUserId exStReissued t = some 1 → t.key = exKey3)) :=
  ⟨by decide, rfl,
    c2_reissue_revokes_prior_active exStTwoTokens exStReissued 1
      "hamlet-newest@zulip.com" exKey3 (by decide) rfl⟩


/-- **C3 (counterexample).** The claim states that issuance succeeds
regardless of whether the Applier's preconditions currently hold.  It does
not: a request by the non-administrator Othello while his realm has email
changes disabled is rejected at issuance with ChangesDisabled (HTTP 400),
producing no state and hence no confirmation link at all. -/
theorem c3_issuance_not_unconditional_counterexample :
    requestEmailChange exState 4 "othello-new@zulip.com" exKey1 =
      Except.error ChangeError.changesDisabled ∧
    errorHttpStatus ChangeError.changesDisabled = 400 ∧
    errorMessage ChangeError.changesDisabled =
      "Email address changes are disabled in this organization." := by
  decide

/-- **C3 (amended).** The Applier's preconditions are enforced at apply
(confirmation) time against the realm's then-current settings, but they are
also checked at issuance: a request that violates a precondition at request
time (here, email changes disabled for a non-administrator) fails
immediately with that error instead of succeeding, while a token issued
while the preconditions held reports a later policy violation when the
confirmation link is used. -/
theorem c3_checks_at_issuance_and_apply (st st1 : State) (uid1 uid2 : Nat)
    (e1 e2 k1 k2 : String) (u1 u2 : User) (r1 r2 : Realm)
    (hu2 : findUser st uid2 = some u2) (hadm2 : u2.isAdmin = false)
    (hval2 : emailValid e2 = true) (hne2 : e2 ≠ u2.deliveryEmail)
    (hr2 : findRealm st u2.realmId = some r2) (hdis2 : r2.emailChangesDisabled = true)
    (hu1 : findUser st uid1 = some u1) (hua1 : u1.active = true) (hadm1 : u1.isAdmin = false)
    (hr1 : findRealm st u1.realmId = some r1) (hra1 : r1.active = true)
    (hwf1 : keyWellFormed k1 = true)
    (hiss : requestEmailChange st uid1 e1 k1 = Except.ok (st1, some k1)) :
    requestEmailChange st uid2 e2 k2 = Except.error ChangeError.changesDisabled ∧
    confirm (setEmailChangesDisabled st1 u1.realmId true) k1 =
      Except.error ChangeError.changesDisabled := by
  constructor
  · unfold requestEmailChange
    simp [hu2, hval2, hne2, hr2, hdis2, hadm2]
  · exact confirm_after_disable st st1 uid1 e1 k1 u1 r1 hu1 hua1 hadm1 hr1 hra1 hwf1 hiss

/-- Witness for the amended C3: Hamlet issues under permissive settings and
realm 1 is then disabled; Othello's request under the already-disabled
realm 2 fails at once. -/
theorem c3_checks_at_issuance_and_apply_witness :
    findUser exState 4 = some exOthello ∧ exOthello.isAdmin = false ∧
    emailValid "othello-new@zulip.com" = true ∧
    "othello-new@zulip.com" ≠ exOthello.deliveryEmail ∧
    findRealm exState exOthello.realmId = some exRealmDisabled ∧
    exRealmDisabled.emailChangesDisabled = true ∧
    findUser exState 1 = some exHamlet ∧ exHamlet.active = true ∧
    exHamlet.isAdmin = false ∧
    findRealm exState exHamlet.realmId = some exRealm ∧ exRealm.active = true ∧
    keyWellFormed exKey1 = true ∧
    requestEmailChange exState 1 "hamlet-new@zulip.com" exKey1 =
      Except.ok (exStIssuedPlain, some exKey1) ∧
    (requestEmailChange exState 4 "othello-new@zulip.com" exKey2 =
       Except.error ChangeError.changesDisabled ∧
     confirm (setEmailChangesDisabled exStIssuedPlain exHamlet.realmId true) exKey1 =
       Except.error ChangeError.changesDisabled) :=
  ⟨rfl, rfl, rfl, by decide, rfl, rfl, rfl,
   rfl, rfl, rfl, rfl, rfl, rfl,
   c3_checks_at_issuance_and_apply exState exStIssuedPlain 1 4
     "hamlet-new@zulip.com" "othello-new@zulip.com" exKey1 exKey2
     exHamlet exOthello exRealm exRealmDisabled
     rfl rfl rfl (by decide) rfl rfl
     rfl rfl rfl rfl rfl rfl
     rfl⟩

/-- **C4.** For a token issued while realm policy permitted the change, if
the realm policy is changed before the link is used — email changes
disabled, or disposable-domain rejection enabled — the confirmation attempt
fails with that policy's error and produces no state change (so the user's
email is unchanged), even though without the policy change the same
confirmation would have succeeded. -/
theorem c4_policy_change_blocks_apply (st st1 : State) (uid : Nat) (e k : String)
    (u : User) (realm : Realm)
    (hu : findUser st uid = some u) (hua : u.active = true) (hadm : u.isAdmin = false)
    (hr : findRealm st u.realmId = some realm) (hra : realm.active = true)
    (hdd : realm.disallowDisposableEmailAddresses = false)
    (hwf : keyWellFormed k = true) (hd : isDisposableEmail e = true)
    (h : requestEmailChange st uid e k = Except.ok (st1, some k)) :
    (confirm (setEmailChangesDisabled st1 u.realmId true) k =
       Except.error ChangeError.changesDisabled ∧
     errorMessage ChangeError.changesDisabled =
       "Email address changes are disabled in this organization." ∧
     ∀ s2, confirm (setEmailChangesDisabled st1 u.realmId true) k ≠ Except.ok s2) ∧
    (confirm (setDisallowDisposable st1 u.realmId true) k =
       Except.error ChangeError.disposableAddressRejected ∧
     errorMessage ChangeError.disposableAddressRejected =
       "Please use your real email address." ∧
     ∀ s2, confirm (setDisallowDisposable st1 u.realmId true) k ≠ Except.ok s2) ∧
    (∃ s2, confirm st1 k = Except.ok s2) := by
  have h1 := confirm_after_disable st st1 uid e k u realm hu hua hadm hr hra hwf h
  have h2 := confirm_after_disallow st st1 uid e k u realm hu hua hadm hr hra hwf hd h
  have h3 := confirm_issued_plain_ok st st1 uid e k u realm hu hua hadm hr hra hdd hwf h
  exact ⟨⟨h1, rfl, fun s2 hc => by rw [h1] at hc; exact Except.noConfusion hc⟩,
    ⟨h2, rfl, fun s2 hc => by rw [h2] at hc; exact Except.noConfusion hc⟩, h3⟩

/-- Witness for C4: Hamlet requests a disposable address while realm 1 is
permissive, and the realm is then locked down either way. -/
theorem c4_policy_change_blocks_apply_witness :
    findUser exState 1 = some exHamlet ∧ exHamlet.active = true ∧
    exHamlet.isAdmin = false ∧
    findRealm exState exHamlet.realmId = some exRealm ∧ exRealm.active = true ∧
    exRealm.disallowDisposableEmailAddresses = false ∧
    keyWellFormed exKey1 = true ∧ isDisposableEmail "hamlet@mailnator.com" = true ∧
    requestEmailChange exState 1 "hamlet@mailnator.com" exKey1 =
      Except.ok (exStIssuedDisposable, some exKey1) ∧
    ((confirm (setEmailChangesDisabled exStIssuedDisposable exHamlet.realmId true) exKey1 =
        Except.error ChangeError.changesDisabled ∧
      errorMessage ChangeError.changesDisabled =
        "Email address changes are disabled in this organization." ∧
      ∀ s2, confirm (setEmailChangesDisabled exStIssuedDisposable exHamlet.realmId true) exKey1 ≠
        Except.ok s2) ∧
     (confirm (setDisallowDisposable exStIssuedDisposable exHamlet.realmId true) exKey1 =
        Except.error ChangeError.disposableAddressRejected ∧
      errorMessage ChangeError.disposableAddressRejected =
        "Please use your real email address." ∧
      ∀ s2, confirm (setDisallowDisposable exStIssuedDisposable exHamlet.realmId true) exKey1 ≠
        Except.ok s2) ∧
     (∃ s2, confirm exStIssuedDisposable exKey1 = Except.ok s2)) :=
  ⟨rfl, rfl, rfl, rfl, rfl, rfl, rfl,
   rfl, rfl,
   c4_policy_change_blocks_apply exState exStIssuedDisposable 1
     "hamlet@mailnator.com" exKey1 exHamlet exRealm
     rfl rfl rfl rfl rfl rfl
     rfl rfl rfl⟩

end EmailChange

namespace ExportCommand

/-- **C10 (counterexample).** The claim says that for every invocation with
a thread count below one, `handle` raises `CommandError`.  In the invocation
that additionally passes both `--public-only` and
`--export-full-with-consent`, the `assert` on line 129 fires before the
thread-count check, so `handle` aborts with an `AssertionError` instead of
a `CommandError`. -/
theorem c10_commanderror_counterexample :
    exBothFlagsOpts.threads < 1 ∧
    (handle exEnv exBothFlagsOpts).1 = Outcome.assertionFailed ∧
    isCommandError (handle exEnv exBothFlagsOpts).1 = false := by
  decide

/-- **C10 (amended).** Provided `--public-only` and
`--export-full-with-consent` are not both passed, every invocation in which
the thread count is below one, the realm is already deactivated while
`--deactivate-realm` is passed, the given output directory is nonempty, the
target tarball already exists, or the usability check fails without
`--force`, makes `handle` raise `CommandError`, and at that point no
`RealmExport` record has been created and the realm has not been
deactivated by the command. -/
theorem c10_precondition_errors_before_side_effects (env : Env) (opts : Options)
    (hboth : ¬ (opts.publicOnly = true ∧ opts.exportFullWithConsent = true))
    (hcond : opts.threads < 1 ∨
      (opts.deactivateRealm = true ∧ env.realmDeactivated = true) ∨
      (opts.outputDirGiven = true ∧ opts.outputDirExists = true ∧
        opts.outputDirNonempty = true) ∨
      opts.tarballExists = true ∨
      (opts.force = false ∧
        ((opts.exportFullWithConsent = true ∧ env.consentExportUsable = false) ∨
         (opts.publicOnly = true ∧ env.publicExportUsable = false)))) :
    (∃ msg, (handle env opts).1 = Outcome.commandError msg) ∧
    (handle env opts).2.createdRealmExportRow = false ∧
    (handle env opts).2.deactivatedRealm = false := by
  unfold handle
  rw [if_neg hboth]
  by_cases h1 : opts.threads < 1
  · rw [if_pos h1]
    exact ⟨⟨_, rfl⟩, rfl, rfl⟩
  · rw [if_neg h1, if_neg hboth]
    by_cases h2 : opts.deactivateRealm = true ∧ env.realmDeactivated = true
    · rw [if_pos h2]
      exact ⟨⟨_, rfl⟩, rfl, rfl⟩
    · rw [if_neg h2]
      by_cases h3 : opts.outputDirGiven = true ∧ opts.outputDirExists = true ∧
          opts.outputDirNonempty = true
      · rw [if_pos h3]
        exact ⟨⟨_, rfl⟩, rfl, rfl⟩
      · rw [if_neg h3]
        by_cases h4 : opts.tarballExists = true
        · rw [if_pos h4]
          exact ⟨⟨_, rfl⟩, rfl, rfl⟩
        · rw [if_neg h4]
          by_cases h5 : opts.force = false ∧
              ((opts.exportFullWithConsent = true ∧ env.consentExportUsable = false) ∨
               (opts.publicOnly = true ∧ env.publicExportUsable = false))
          · rw [if_pos h5]
            exact ⟨⟨_, rfl⟩, rfl, rfl⟩
          · exfalso
            rcases hcond with hc | hc | hc | hc | hc
            · exact h1 hc
            · exact h2 hc
            · exact h3 hc
            · exact h4 hc
            · exact h5 hc

/-- Witness for the amended C10: a plain invocation whose only defect is a
thread count of zero. -/
theorem c10_precondition_errors_before_side_effects_witness :
    (¬ (exZeroThreadsOpts.publicOnly = true ∧
        exZeroThreadsOpts.exportFullWithConsent = true)) ∧
    (exZeroThreadsOpts.threads < 1 ∨
      (exZeroThreadsOpts.deactivateRealm = true ∧ exEnv.realmDeactivated = true) ∨
      (exZeroThreadsOpts.outputDirGiven = true ∧ exZeroThreadsOpts.outputDirExists = true ∧
        exZeroThreadsOpts.outputDirNonempty = true) ∨
      exZeroThreadsOpts.tarballExists = true ∨
      (exZeroThreadsOpts.force = false ∧
        ((exZeroThreadsOpts.exportFullWithConsent = true ∧
            exEnv.consentExportUsable = false) ∨
         (exZeroThreadsOpts.publicOnly = true ∧ exEnv.publicExportUsable = false)))) ∧
    ((∃ msg, (handle exEnv exZeroThreadsOpts).1 = Outcome.commandError msg) ∧
     (handle exEnv exZeroThreadsOpts).2.createdRealmExportRow = false ∧
     (handle exEnv exZeroThreadsOpts).2.deactivatedRealm = false) :=
  ⟨by decide, by decide,
    c10_precondition_errors_before_side_effects exEnv exZeroThreadsOpts
      (by decide) (by decide)⟩

end ExportCommand
